import Mathlib

/-!
Shallow embedding of the deployment-automation core of `knative.dev/client`:
the step-plan interpreter (`pkg/functions/deploy.go`, `RunDeploy`) and the
retry/polling layer of the e2e harness (`test/e2e/common.go`:
`checkNamespace`, `createNamespace`, `runCLIWithOpts`).

External collaborators (the template engine, the OS path lookup, process
spawning, plan loading) are modelled as oracles bundled in a `World`;
side effects are recorded in an explicit trace; the filesystem relevant to
`os.MkdirAll` is a small explicit state.
-/

namespace KnClient

/-- Split a character list at every occurrence of the separator, keeping
empty segments, as Go `strings.Split` does for a one-character separator. -/
def splitOnChar (c : Char) : List Char → List (List Char)
  | [] => [[]]
  | x :: xs =>
    match splitOnChar c xs with
    | [] => [[]]
    | y :: ys => if x = c then [] :: y :: ys else (x :: y) :: ys

/-- Go `strings.Split(s, sep)` for a one-character separator. -/
def splitString (sep : Char) (s : String) : List String :=
  (splitOnChar sep s.data).map (fun l => String.mk l)

/-- Substring containment, mirroring Go `strings.Contains`. -/
def strContains (hay needle : String) : Bool :=
  hay.data.tails.any (fun t => needle.data.isPrefixOf t)

/-- Errors flowing through the deploy interpreter and its collaborators. -/
inductive Err where
  | templateErr : String → Err
  | lookPathErr : String → Err
  | execErr : String → Err
  | mkdirErr : String → Err
  | renderErr : String → Err
  | configErr : String → Err
  | loadErr : String → Err
  deriving DecidableEq, Repr

/-- The user-visible message of an error; for the configuration error this is
the `fmt.Errorf("invalid config step '%s' - no command specified", step.Name)`
string of `deploy.go`. -/
def Err.message : Err → String
  | .templateErr m => m
  | .lookPathErr m => m
  | .execErr m => m
  | .mkdirErr m => m
  | .renderErr m => m
  | .configErr name => "invalid config step '" ++ name ++ "' - no command specified"
  | .loadErr m => m

/-- The `file:` payload of a step (`Source`, `Destination` in the plan schema). -/
structure FileSpec where
  source : String
  destination : String
  deriving DecidableEq, Repr

/-- One plan step. Go represents the variant as "whichever string field is
non-empty"; absent fields default to the empty string. -/
structure Step where
  name : String
  mkdir : String
  exec : String
  file : FileSpec
  deriving DecidableEq, Repr

/-- The plan's `spec.steps` sequence. -/
structure PlanSpec where
  steps : List Step
  deriving DecidableEq, Repr

/-- The loaded deploy plan (result of `sdks.LoadSDKInit`). -/
structure DeployPlan where
  spec : PlanSpec
  deriving DecidableEq, Repr

/-- `SdkStatus` as used by `RunDeploy`: the SDK directory and display name. -/
structure SdkStatus where
  dir : String
  sdkName : String
  deriving DecidableEq, Repr

/-- The template context (`map[string]interface{}`), values as strings. -/
def Ctx := List (String × String)

/-- Filesystem state visible to `os.MkdirAll`: the set of existing directory
paths and the set of paths occupied by non-directory files. -/
structure FS where
  dirs : List String
  files : List String
  deriving DecidableEq, Repr

/-- All ancestor paths of `p` (including `p` itself), obtained from its
`/`-separated components, as `os.MkdirAll` creates them. -/
def pathPrefixes (p : String) : List String :=
  (((splitString '/' p).inits.filter (fun l => l ≠ [])).map (String.intercalate "/"))

/-- `os.MkdirAll`: creates the directory and all missing ancestors; an
existing directory is not an error; fails on the empty path and when a
needed path component exists as a non-directory file. -/
def mkdirAll (p : String) (fs : FS) : FS × Option Err :=
  if p = "" then
    (fs, some (Err.mkdirErr ("mkdir " ++ p ++ ": no such file or directory")))
  else if (pathPrefixes p).any (fun a => fs.files.contains a) then
    (fs, some (Err.mkdirErr ("mkdir " ++ p ++ ": not a directory")))
  else
    let newDirs := (pathPrefixes p).foldl
        (fun d a => if d.contains a then d else d ++ [a]) fs.dirs
    ({ fs with dirs := newDirs }, none)

/-- Oracles for the external collaborators of `RunDeploy`.
`interpretString` returns Go's two values `(string, error)`. -/
structure World where
  loadSDKInit : String → Except Err DeployPlan
  interpretString : String → Ctx → String × Option Err
  lookPath : String → Except Err String
  runCmd : String → List String → Option Err
  renderTemplate : String → String → Ctx → Option Err

/-- Observable side effects of one plan execution. -/
inductive Event where
  | print : String → Event
  | mkdirCall : String → Event
  | execRun : String → List String → Bool → Bool → Event
  | render : String → String → Event
  deriving DecidableEq, Repr

/-- The whitespace tokenisation of an `Exec` command line, as the source
performs it: `strings.Split(step.Exec, " ")` — a split on the single space
character. -/
def execTokens (cmdline : String) : List String :=
  splitString ' ' cmdline

/-- The token resolved against the executable search path (`parts[0]`). -/
def firstToken (cmdline : String) : String :=
  (execTokens cmdline).headD ""

/-- The argument vector passed to the spawned process: all tokens after the
first (`args = parts[1:]`, guarded by the always-true `len(parts) > 0`). -/
def execArgs (cmdline : String) : List String :=
  let parts := execTokens cmdline
  if parts.length > 0 then parts.tail else []

/-- Interpret one step's payload, dispatching exactly as the
`if / else if / else` chain of `RunDeploy` (deploy.go lines 41-78):
`Mkdir` first, then `Exec`, then `File.Source`, else the configuration
error. In the `Mkdir` branch the error returned by `InterpretString` is
discarded, as in the source (`createDir, err := ...; err = os.MkdirAll(...)`). -/
def execStep (w : World) (sdkDir : String) (data : Ctx) (fs : FS) (step : Step) :
    List Event × FS × Option Err :=
  if step.mkdir ≠ "" then
    let (createDir, _terr) := w.interpretString step.mkdir data
    let (fs', merr) := mkdirAll createDir fs
    ([Event.mkdirCall createDir], fs', merr)
  else if step.exec ≠ "" then
    match w.lookPath (firstToken step.exec) with
    | .error e => ([], fs, some e)
    | .ok path =>
      let args := execArgs step.exec
      match w.runCmd path args with
      | some e => ([Event.execRun path args true true], fs, some e)
      | none => ([Event.execRun path args true true], fs, none)
  else if step.file.source ≠ "" then
    let sourceFile := sdkDir ++ "/" ++ step.file.source
    let (outFile, terr) := w.interpretString step.file.destination data
    match terr with
    | some e => ([], fs, some e)
    | none =>
      match w.renderTemplate sourceFile outFile data with
      | some e => ([Event.render sourceFile outFile], fs, some e)
      | none => ([Event.render sourceFile outFile], fs, none)
  else
    ([], fs, some (Err.configErr step.name))

/-- The step loop of `RunDeploy`: print the progress marker, run the step,
stop at the first error (fail-fast), otherwise continue with the next step. -/
def runSteps (w : World) (sdkDir : String) (data : Ctx) :
    List Step → FS → List Event × FS × Option Err
  | [], fs => ([], fs, none)
  | step :: rest, fs =>
    let (tr, fs', r) := execStep w sdkDir data fs step
    let trStep := Event.print (" ♫ " ++ step.name ++ "\n") :: tr
    match r with
    | some e => (trStep, fs', some e)
    | none =>
      let (tr2, fs2, r2) := runSteps w sdkDir data rest fs'
      (trStep ++ tr2, fs2, r2)

/-- `RunDeploy`: load the plan from `<dir>deploy.yaml`, print the banner,
then interpret the steps against an initially empty context. -/
def RunDeploy (w : World) (sdk : SdkStatus) (fs : FS) :
    List Event × FS × Option Err :=
  let deployFile := sdk.dir ++ "deploy.yaml"
  match w.loadSDKInit deployFile with
  | .error e => ([], fs, some e)
  | .ok deployPlan =>
    let banner := Event.print ("Using SDK: " ++ sdk.sdkName ++ " deploy plans\n")
    let (tr, fs', r) := runSteps w sdk.dir ([] : Ctx) deployPlan.spec.steps fs
    (banner :: tr, fs', r)

/-! ### The e2e harness layer (`test/e2e/common.go`) -/

/-- `MaxRetries` constant (common.go line 43). -/
def MaxRetries : Nat := 10

/-- Events of a retry/poll loop: one probe (kubectl) invocation carrying its
attempt index, or one fixed-interval sleep. -/
inductive PollEvent where
  | probe : Nat → PollEvent
  | sleep : PollEvent
  deriving DecidableEq, Repr

/-- Number of probe invocations recorded in a trace. -/
def numProbes (tr : List PollEvent) : Nat :=
  (tr.filter (fun e => match e with | .probe _ => true | .sleep => false)).length

/-- The loop body of `checkNamespace`, with the remaining iterations of
`for retries < MaxRetries` as explicit fuel. The probe's own error is
discarded (`output, _ := kubectlGetNamespace()`); when the loop exits by
exhaustion the function returns `true` (common.go line 171). -/
def checkLoop (probe : Nat → String × Option Err) (ns : String) (created : Bool) :
    Nat → Nat → List PollEvent × Bool
  | 0, _ => ([], true)
  | fuel + 1, retries =>
    let (output, _) := probe retries
    if !created && !(strContains output ns) then
      ([PollEvent.probe retries], true)
    else if created && strContains output ns then
      ([PollEvent.probe retries], true)
    else
      let (tr, r) := checkLoop probe ns created fuel (retries + 1)
      (PollEvent.probe retries :: PollEvent.sleep :: tr, r)

/-- `checkNamespace`: polls `kubectl get namespace` until the namespace is
present (`created = true`) or absent (`created = false`). The loop bound is
the package constant `MaxRetries`, not the `maxRetries` parameter (which is
only used in the debug log message). -/
def checkNamespace (probe : Nat → String × Option Err) (ns : String)
    (created : Bool) (maxRetries : Nat) : List PollEvent × Bool :=
  let _ := maxRetries
  checkLoop probe ns created MaxRetries 0

/-- The loop body of `createNamespace`, carrying the loop variables
`out, err` so that exhaustion returns the last attempt's values. -/
def createLoop (attempt : Nat → String × Option Err) :
    Nat → Nat → String → Option Err → List PollEvent × String × Option Err
  | 0, _, out, err => ([], out, err)
  | fuel + 1, retries, _, _ =>
    let (out, err) := attempt retries
    match err with
    | none => ([PollEvent.probe retries], out, none)
    | some e =>
      let (tr, o, er) := createLoop attempt fuel (retries + 1) out (some e)
      (PollEvent.probe retries :: PollEvent.sleep :: tr, o, er)

/-- `createNamespace`: blind bounded retry of the `kubectl create namespace`
call itself, bounded by the `maxRetries` parameter; returns on the first
success, else the last attempt's output and error. -/
def createNamespace (attempt : Nat → String × Option Err) (maxRetries : Nat) :
    List PollEvent × String × Option Err :=
  createLoop attempt maxRetries 0 "" none

/-- The run options of one process invocation (`runOpts`); only the fields
`AllowError` and the presence of `StdoutWriter` affect the returned values. -/
structure RunOpts where
  noNamespace : Bool := false
  allowError : Bool := false
  stdoutWriter : Bool := false
  redact : Bool := false
  deriving DecidableEq, Repr

/-- What the spawned child process did: captured stdout and stderr text, and
`none` for exit code zero or `some msg` for a non-zero exit / spawn failure. -/
structure ProcResult where
  stdout : String
  stderr : String
  sysErr : Option String
  deriving DecidableEq, Repr

/-- Outcome of `runCLIWithOpts`: either `logger.Fatalf` terminated the whole
run, or the function returned `(capturedStdout, error)`. -/
inductive RunOutcome where
  | fatal : String → RunOutcome
  | ret : String → Option String → RunOutcome
  deriving DecidableEq, Repr

/-- `cmdCLIDesc`. -/
def cmdCLIDesc (cli : String) (args : List String) : String :=
  cli ++ " " ++ String.intercalate " " args

/-- `runCLIWithOpts`: stderr is always captured; stdout goes to the caller's
sink if supplied (leaving the returned capture empty), else is captured. A
non-zero exit or spawn failure is wrapped into an error embedding the
captured stderr and the system error; without `AllowError` this is fatal. -/
def runCLIWithOpts (cli : String) (args : List String) (opts : RunOpts)
    (res : ProcResult) : RunOutcome :=
  let stdoutStr := if opts.stdoutWriter then "" else res.stdout
  match res.sysErr with
  | none => RunOutcome.ret stdoutStr none
  | some sys =>
    let e := "Execution error: stderr: '" ++ res.stderr ++ "' error: '" ++ sys ++ "'"
    if !opts.allowError then
      RunOutcome.fatal ("Failed to successfully execute '" ++ cmdCLIDesc cli args ++ "': " ++ e)
    else
      RunOutcome.ret stdoutStr (some e)

/-! ### Concrete worlds used by witnesses and counterexamples -/

/-- A benign world: plan loading yields the empty plan, templates render to
themselves without error, path lookup succeeds with the token itself,
processes exit zero, file rendering succeeds. -/
def wAll : World where
  loadSDKInit := fun _ => .ok ⟨⟨[]⟩⟩
  interpretString := fun s _ => (s, none)
  lookPath := fun s => .ok s
  runCmd := fun _ _ => none
  renderTemplate := fun _ _ _ => none

/-- Like `wAll`, except that executable lookup always fails with the
looked-up token in the error. -/
def wNoLook : World where
  loadSDKInit := fun _ => .ok ⟨⟨[]⟩⟩
  interpretString := fun s _ => (s, none)
  lookPath := fun s => .error (Err.lookPathErr s)
  runCmd := fun _ _ => none
  renderTemplate := fun _ _ _ => none

/-- A world exhibiting the discarded template error of the `Mkdir` branch:
the template engine fails (missing context key) and returns the string
`"tmp"` alongside its error; everything else succeeds. -/
def wTemplFail : World where
  loadSDKInit := fun _ => .ok ⟨⟨[⟨"make-dir", "$name", "", ⟨"", ""⟩⟩]⟩⟩
  interpretString := fun _ _ => ("tmp", some (Err.templateErr "template: key name not found"))
  lookPath := fun s => .ok s
  runCmd := fun _ _ => none
  renderTemplate := fun _ _ _ => none

/-- A world whose plan is two `Mkdir` steps with rendering succeeding. -/
def wTwoMkdir : World where
  loadSDKInit := fun _ => .ok ⟨⟨[⟨"a", "x/y", "", ⟨"", ""⟩⟩, ⟨"b", "x/z", "", ⟨"", ""⟩⟩]⟩⟩
  interpretString := fun s _ => (s, none)
  lookPath := fun s => .ok s
  runCmd := fun _ _ => none
  renderTemplate := fun _ _ _ => none

/-- Is this character whitespace, in the sense of the tokenisation the spec
describes for `Exec` command lines? -/
def isWsChar (c : Char) : Bool :=
  c = ' ' ∨ c = '\t' ∨ c = '\n' ∨ c = '\r'

/-- Split a character list at every whitespace character. -/
def splitOnWsAux : List Char → List (List Char)
  | [] => [[]]
  | x :: xs =>
    match splitOnWsAux xs with
    | [] => [[]]
    | y :: ys => if isWsChar x then [] :: y :: ys else (x :: y) :: ys

/-- Following the spec's words for `Exec` steps ("split the command line on
whitespace"): tokenise at whitespace characters, a token being a maximal
whitespace-free run. Stated only to compare with the source's `execTokens`. -/
def splitOnWhitespaceSpec (s : String) : List String :=
  ((splitOnWsAux s.data).filter (fun l => l ≠ [])).map (fun l => String.mk l)

/-- The condition `checkNamespace` polls for: the namespace name appears in
the listing output (`created = true`) or no longer appears (`created = false`). -/
def nsCond (created : Bool) (ns output : String) : Bool :=
  if created then strContains output ns else !(strContains output ns)

/-- The trace of `n` consecutive unsatisfied attempts starting at index `r`:
each probe followed by the fixed-interval sleep. -/
def pollTrace (r : Nat) : Nat → List PollEvent
  | 0 => []
  | n + 1 => PollEvent.probe r :: PollEvent.sleep :: pollTrace (r + 1) n

/-- A create call that fails on attempts 0 and 1 and succeeds from attempt 2. -/
def attemptFailTwice : Nat → String × Option Err :=
  fun i => ("out", if i < 2 then some (Err.execErr "boom") else none)

/-- A create call that always fails. -/
def attemptFailAll : Nat → String × Option Err :=
  fun _ => ("err-out", some (Err.execErr "always"))

/-! ### Helper lemmas -/

/-- Unfolding of the step loop on a cons cell. -/
theorem runSteps_cons (w : World) (d : String) (data : Ctx) (s : Step)
    (rest : List Step) (fs : FS) :
    runSteps w d data (s :: rest) fs =
      match execStep w d data fs s with
      | (tr, fs', some e) => (Event.print (" ♫ " ++ s.name ++ "\n") :: tr, fs', some e)
      | (tr, fs', none) =>
        ((Event.print (" ♫ " ++ s.name ++ "\n") :: tr) ++ (runSteps w d data rest fs').1,
         (runSteps w d data rest fs').2.1, (runSteps w d data rest fs').2.2) := by
  rcases h : execStep w d data fs s with ⟨tr, fs', r⟩
  cases r <;> simp [runSteps, h]

/-- If an initial segment of the plan errors, appending further steps changes
nothing: neither the trace, nor the state, nor the error. -/
theorem runSteps_append_error (w : World) (d : String) (data : Ctx)
    (xs ys : List Step) (fs : FS) (e : Err)
    (h : (runSteps w d data xs fs).2.2 = some e) :
    runSteps w d data (xs ++ ys) fs = runSteps w d data xs fs := by
  induction xs generalizing fs with
  | nil => simp [runSteps] at h
  | cons x xs ih =>
    rcases hx : execStep w d data fs x with ⟨tr, fs', r⟩
    cases r with
    | some e' =>
      simp [runSteps_cons, hx]
    | none =>
      rw [runSteps_cons, hx] at h
      simp only [List.cons_append, runSteps_cons, hx]
      rw [ih fs' (by simpa using h)]

/-- If an initial segment of the plan succeeds, the run on the concatenation
is the run of the segment followed by the run of the rest from the reached
state, traces concatenated in order. -/
theorem runSteps_append_ok (w : World) (d : String) (data : Ctx)
    (xs ys : List Step) (fs : FS)
    (h : (runSteps w d data xs fs).2.2 = none) :
    runSteps w d data (xs ++ ys) fs =
      ((runSteps w d data xs fs).1
         ++ (runSteps w d data ys (runSteps w d data xs fs).2.1).1,
       (runSteps w d data ys (runSteps w d data xs fs).2.1).2.1,
       (runSteps w d data ys (runSteps w d data xs fs).2.1).2.2) := by
  induction xs generalizing fs with
  | nil => simp [runSteps]
  | cons x xs ih =>
    rcases hx : execStep w d data fs x with ⟨tr, fs', r⟩
    cases r with
    | some e' =>
      rw [runSteps_cons, hx] at h
      simp at h
    | none =>
      rw [runSteps_cons, hx] at h
      simp only [List.cons_append, runSteps_cons, hx]
      rw [ih fs' (by simpa using h)]
      simp

/-! ### C10: dispatch priority -/

/-- C10: step dispatch follows the fixed priority order Mkdir, then Exec,
then FileTemplate source; only the first non-empty payload runs (the branch
result does not depend on the lower-priority payloads), and a step with all
three payloads empty yields the configuration error even when the
FileTemplate destination is set. -/
theorem step_dispatch_priority (w : World) (d : String) (data : Ctx)
    (fs : FS) (s : Step) :
    (s.mkdir ≠ "" →
      execStep w d data fs s =
        ([Event.mkdirCall (w.interpretString s.mkdir data).1],
         (mkdirAll (w.interpretString s.mkdir data).1 fs).1,
         (mkdirAll (w.interpretString s.mkdir data).1 fs).2))
    ∧ (s.mkdir = "" → s.exec ≠ "" →
      execStep w d data fs s =
        (match w.lookPath (firstToken s.exec) with
         | .error e => ([], fs, some e)
         | .ok p =>
           ([Event.execRun p (execArgs s.exec) true true], fs,
            w.runCmd p (execArgs s.exec))))
    ∧ (s.mkdir = "" → s.exec = "" → s.file.source ≠ "" →
      execStep w d data fs s =
        (match (w.interpretString s.file.destination data).2 with
         | some e => ([], fs, some e)
         | none =>
           ([Event.render (d ++ "/" ++ s.file.source)
               (w.interpretString s.file.destination data).1], fs,
            w.renderTemplate (d ++ "/" ++ s.file.source)
              (w.interpretString s.file.destination data).1 data)))
    ∧ (s.mkdir = "" → s.exec = "" → s.file.source = "" →
      execStep w d data fs s = ([], fs, some (Err.configErr s.name))) := by
  refine ⟨fun h1 => ?_, fun h1 h2 => ?_, fun h1 h2 h3 => ?_, fun h1 h2 h3 => ?_⟩
  · rcases hI : w.interpretString s.mkdir data with ⟨c, t⟩
    rcases hM : mkdirAll c fs with ⟨fs', m⟩
    simp [execStep, h1, hI, hM]
  · rcases hL : w.lookPath (firstToken s.exec) with e | p
    · simp [execStep, h1, h2, hL]
    · rcases hR : w.runCmd p (execArgs s.exec) with _ | e <;>
        simp [execStep, h1, h2, hL, hR]
  · rcases hI : w.interpretString s.file.destination data with ⟨o, t⟩
    cases t with
    | none =>
      rcases hR : w.renderTemplate (d ++ "/" ++ s.file.source) o data with _ | e <;>
        simp [execStep, h1, h2, h3, hI, hR]
    | some e => simp [execStep, h1, h2, h3, hI]
  · simp [execStep, h1, h2, h3]

/-- Witness for C10 at a step with every payload populated: only the Mkdir
branch runs. -/
theorem step_dispatch_priority_witness :
    execStep wAll "sdk" [] ⟨[], []⟩ ⟨"s", "m", "e cmd", ⟨"src", "dst"⟩⟩ =
      ([Event.mkdirCall "m"], ⟨["m"], []⟩, none) := by
  have h := (step_dispatch_priority wAll "sdk" [] ⟨[], []⟩
      ⟨"s", "m", "e cmd", ⟨"src", "dst"⟩⟩).1 (by decide)
  rw [h]; decide

/-! ### C8: configuration error -/

/-- C8: a step whose `Mkdir`, `Exec` and `FileTemplate` source payloads are
all empty fails immediately with a configuration error whose message names
the step, and no later step runs (the result does not depend on `post`). -/
theorem config_error_aborts_plan (w : World) (d : String) (data : Ctx)
    (fs : FS) (s : Step) (post : List Step)
    (h1 : s.mkdir = "") (h2 : s.exec = "") (h3 : s.file.source = "") :
    runSteps w d data (s :: post) fs
        = ([Event.print (" ♫ " ++ s.name ++ "\n")], fs, some (Err.configErr s.name))
      ∧ (Err.configErr s.name).message
        = "invalid config step '" ++ s.name ++ "' - no command specified" := by
  constructor
  · rw [runSteps_cons]
    simp [execStep, h1, h2, h3]
  · rfl

/-- Witness for C8: a payload-less step aborts a plan that has a further
(runnable) step after it. -/
theorem config_error_aborts_plan_witness :
    runSteps wAll "sdk" [] [⟨"empty", "", "", ⟨"", "dst"⟩⟩, ⟨"later", "m", "", ⟨"", ""⟩⟩] ⟨[], []⟩
        = ([Event.print " ♫ empty\n"], ⟨[], []⟩, some (Err.configErr "empty"))
      ∧ (Err.configErr "empty").message
        = "invalid config step 'empty' - no command specified" :=
  config_error_aborts_plan wAll "sdk" [] ⟨[], []⟩ ⟨"empty", "", "", ⟨"", "dst"⟩⟩
    [⟨"later", "m", "", ⟨"", ""⟩⟩] rfl rfl rfl

/-! ### C3: declaration order and fail-fast -/

/-- C3: steps run strictly in declaration order and execution is fail-fast:
when the steps before `s` all succeed and `s` itself errors with `e`, the
whole run returns `e`, its trace is exactly the in-order trace of the
earlier steps followed by the trace of `s`, and nothing of the later steps
`post` is executed (the result does not depend on `post`). -/
theorem runSteps_order_failFast (w : World) (d : String) (data : Ctx)
    (pre : List Step) (s : Step) (post : List Step) (fs : FS) (e : Err)
    (hok : (runSteps w d data pre fs).2.2 = none)
    (herr : (execStep w d data (runSteps w d data pre fs).2.1 s).2.2 = some e) :
    runSteps w d data (pre ++ s :: post) fs =
      ((runSteps w d data pre fs).1
         ++ Event.print (" ♫ " ++ s.name ++ "\n")
            :: (execStep w d data (runSteps w d data pre fs).2.1 s).1,
       (execStep w d data (runSteps w d data pre fs).2.1 s).2.1,
       some e) := by
  rw [runSteps_append_ok w d data pre (s :: post) fs hok]
  rcases hx : execStep w d data (runSteps w d data pre fs).2.1 s with ⟨tr, fs', r⟩
  rw [hx] at herr
  simp only at herr
  subst herr
  rw [runSteps_cons, hx]

/-- Witness for C3: a two-step prefix succeeds, the third step's executable
is unresolvable, and the fourth step (which would run a command) leaves no
trace. -/
theorem runSteps_order_failFast_witness :
    runSteps wNoLook "sdk" []
        [⟨"one", "a", "", ⟨"", ""⟩⟩, ⟨"two", "b", "", ⟨"", ""⟩⟩,
         ⟨"three", "", "missing-bin x", ⟨"", ""⟩⟩, ⟨"four", "", "touch z", ⟨"", ""⟩⟩]
        ⟨[], []⟩ =
      ([Event.print " ♫ one\n", Event.mkdirCall "a",
        Event.print " ♫ two\n", Event.mkdirCall "b",
        Event.print " ♫ three\n"],
       ⟨["a", "b"], []⟩,
       some (Err.lookPathErr "missing-bin")) := by
  have h := runSteps_order_failFast wNoLook "sdk" []
    [⟨"one", "a", "", ⟨"", ""⟩⟩, ⟨"two", "b", "", ⟨"", ""⟩⟩]
    ⟨"three", "", "missing-bin x", ⟨"", ""⟩⟩
    [⟨"four", "", "touch z", ⟨"", ""⟩⟩] ⟨[], []⟩
    (Err.lookPathErr "missing-bin") (by decide) (by decide)
  simpa using h

/-! ### C1: template error handling in Mkdir steps -/

/-- C1 (code bug, evaluated at the failing input): for a `Mkdir` step whose
path template fails to render, `RunDeploy` does not return the rendering
error — the source discards the `InterpretString` error and keeps only the
`MkdirAll` result, so here the plan even reports success. -/
theorem runDeploy_mkdir_template_error_swallowed :
    (wTemplFail.interpretString "$name" []).2
        = some (Err.templateErr "template: key name not found")
      ∧ (RunDeploy wTemplFail ⟨"sdk/", "go"⟩ ⟨[], []⟩).2.2 = none
      ∧ (RunDeploy wTemplFail ⟨"sdk/", "go"⟩ ⟨[], []⟩).2.2
        ≠ some (Err.templateErr "template: key name not found") := by
  refine ⟨rfl, ?_, ?_⟩ <;> decide

/-! ### C6: Exec command-line tokenisation -/

/-- C6 counterexample: the interpreter does not split the command line on
whitespace — it splits on the single space character only. On the command
line `"kubectl\tget ns"` whitespace tokenisation yields
`["kubectl", "get", "ns"]`, so the claim predicts a lookup of `"kubectl"`
and arguments `["get", "ns"]`; the code instead looks up `"kubectl\tget"`
and passes `["ns"]`. -/
theorem exec_whitespace_split_counterexample :
    splitOnWhitespaceSpec "kubectl\tget ns" = ["kubectl", "get", "ns"]
      ∧ execTokens "kubectl\tget ns" = ["kubectl\tget", "ns"]
      ∧ (execStep wAll "sdk" [] ⟨[], []⟩ ⟨"e", "", "kubectl\tget ns", ⟨"", ""⟩⟩).1
        = [Event.execRun "kubectl\tget" ["ns"] true true]
      ∧ (execStep wAll "sdk" [] ⟨[], []⟩ ⟨"e", "", "kubectl\tget ns", ⟨"", ""⟩⟩).1
        ≠ [Event.execRun "kubectl" ["get", "ns"] true true] := by
  refine ⟨?_, ?_, ?_, ?_⟩ <;> decide

/-- C6 (amended: the split is on the single space character, not on general
whitespace): for every `Exec` step, the interpreter splits the command line
on the space character into tokens, resolves the first token against the
executable search path — an unresolvable first token aborts the plan with
the lookup error and no later step runs — and passes all remaining tokens
as the arguments of the invoked process, with the parent's standard streams
directly attached and the parent's environment inherited (the two `true`
flags of the recorded `execRun` event). -/
theorem exec_step_contract (w : World) (d : String) (data : Ctx) (fs : FS)
    (s : Step) (post : List Step) (hm : s.mkdir = "") (he : s.exec ≠ "") :
    (∀ er, w.lookPath (firstToken s.exec) = .error er →
      runSteps w d data (s :: post) fs
        = ([Event.print (" ♫ " ++ s.name ++ "\n")], fs, some er))
    ∧ (∀ p, w.lookPath (firstToken s.exec) = .ok p →
      execStep w d data fs s
        = ([Event.execRun p (execArgs s.exec) true true], fs,
           w.runCmd p (execArgs s.exec)))
    ∧ firstToken s.exec = (execTokens s.exec).headD ""
    ∧ execArgs s.exec = (execTokens s.exec).tail := by
  refine ⟨fun er her => ?_, fun p hp => ?_, rfl, ?_⟩
  · rw [runSteps_cons]
    simp [execStep, hm, he, her]
  · rcases hR : w.runCmd p (execArgs s.exec) with _ | e <;>
      simp [execStep, hm, he, hp, hR]
  · rcases h : execTokens s.exec with _ | ⟨a, l⟩ <;> simp [execArgs, h]

/-- Witness for C6: a resolvable three-token command records the resolved
path with the two remaining tokens as arguments; an unresolvable one aborts
a plan that still has a later step. -/
theorem exec_step_contract_witness :
    runSteps wNoLook "sdk" []
        [⟨"e", "", "kubectl get ns", ⟨"", ""⟩⟩, ⟨"later", "m", "", ⟨"", ""⟩⟩] ⟨[], []⟩
        = ([Event.print " ♫ e\n"], ⟨[], []⟩, some (Err.lookPathErr "kubectl"))
      ∧ execStep wAll "sdk" [] ⟨[], []⟩ ⟨"e", "", "kubectl get ns", ⟨"", ""⟩⟩
        = ([Event.execRun "kubectl" ["get", "ns"] true true], ⟨[], []⟩, none) := by
  constructor
  · have h := (exec_step_contract wNoLook "sdk" [] ⟨[], []⟩
        ⟨"e", "", "kubectl get ns", ⟨"", ""⟩⟩ [⟨"later", "m", "", ⟨"", ""⟩⟩]
        rfl (by decide)).1 (Err.lookPathErr "kubectl") (by rfl)
    simpa using h
  · have h := (exec_step_contract wAll "sdk" [] ⟨[], []⟩
        ⟨"e", "", "kubectl get ns", ⟨"", ""⟩⟩ [] rfl (by decide)).2.1 "kubectl" (by rfl)
    rw [h]; decide

/-! ### The poller: helper lemmas -/

/-- A poll trace of `n` unsatisfied attempts holds exactly `n` probes. -/
theorem numProbes_pollTrace (r n : Nat) : numProbes (pollTrace r n) = n := by
  induction n generalizing r with
  | zero => rfl
  | succ n ih => simp [pollTrace, numProbes] at ih ⊢; exact ih (r + 1)

/-- When the condition never holds, the `checkNamespace` loop consumes all
its fuel, probing and sleeping each time, and still produces `true`. -/
theorem checkLoop_exhaust (probe : Nat → String × Option Err) (ns : String)
    (created : Bool) (fuel : Nat) :
    ∀ r, (∀ i, nsCond created ns (probe i).1 = false) →
      checkLoop probe ns created fuel r = (pollTrace r fuel, true) := by
  induction fuel with
  | zero => intro r _; rfl
  | succ fuel ih =>
    intro r h
    rcases hp : probe r with ⟨out, perr⟩
    have hc := h r
    rw [hp] at hc
    cases created with
    | true =>
      simp [nsCond] at hc
      simp [checkLoop, hp, hc, pollTrace, ih (r + 1) h]
    | false =>
      simp [nsCond] at hc
      simp [checkLoop, hp, hc, pollTrace, ih (r + 1) h]

/-- The loop never looks at the probe's error component. -/
theorem checkLoop_ignores_probe_error (probe : Nat → String × Option Err)
    (ns : String) (created : Bool) (fuel : Nat) :
    ∀ r, checkLoop probe ns created fuel r
      = checkLoop (fun i => ((probe i).1, none)) ns created fuel r := by
  induction fuel with
  | zero => intro r; rfl
  | succ fuel ih =>
    intro r
    rcases hp : probe r with ⟨out, perr⟩
    have hp1 : (probe r).1 = out := by rw [hp]
    simp [checkLoop, hp, hp1, ih (r + 1)]

/-! ### C2: success reported on exhaustion -/

/-- C2: when no probe output ever satisfies the target condition, the poller
exhausts the whole retry budget — `MaxRetries` probes, each followed by the
fixed sleep — and still returns `true`. -/
theorem checkNamespace_returns_true_on_exhaustion
    (probe : Nat → String × Option Err) (ns : String) (created : Bool)
    (maxRetries : Nat) (h : ∀ i, nsCond created ns (probe i).1 = false) :
    checkNamespace probe ns created maxRetries = (pollTrace 0 MaxRetries, true)
      ∧ numProbes (pollTrace 0 MaxRetries) = MaxRetries :=
  ⟨checkLoop_exhaust probe ns created MaxRetries 0 h,
   numProbes_pollTrace 0 MaxRetries⟩

/-- Witness for C2: a probe whose output never mentions the namespace. -/
theorem checkNamespace_returns_true_on_exhaustion_witness :
    checkNamespace (fun _ => ("", none)) "testns" true 3
        = (pollTrace 0 MaxRetries, true)
      ∧ numProbes (pollTrace 0 MaxRetries) = MaxRetries :=
  checkNamespace_returns_true_on_exhaustion (fun _ => ("", none)) "testns" true 3
    (fun _ => rfl)

/-! ### C4: the poller's attempt accounting -/

/-- C4 counterexample: with an attempt budget of `2` and a probe whose
output never contains the name, the poller still invokes the probe `10`
times — the loop is bounded by the constant `MaxRetries`, not by the
`maxRetries` argument, so "exactly maxAttempts invocations" fails. -/
theorem checkNamespace_ignores_budget_counterexample :
    numProbes (checkNamespace (fun _ => ("", none)) "testns" true 2).1 = 10
      ∧ (10 : Nat) ≠ 2 := by
  constructor <;> decide

/-- C4 (amended: on exhaustion the probe is invoked exactly `MaxRetries`
(= 10, the package constant) times, the `maxAttempts` parameter not bounding
the loop): under `targetPresent = true`, output containing the name on the
first attempt returns satisfied after exactly one probe invocation and no
sleep; output never containing the name yields exactly `MaxRetries` probe
invocations with the fixed sleep after each; and a probe error is treated
exactly like output not satisfying the condition. -/
theorem checkNamespace_poll_contract (probe : Nat → String × Option Err)
    (ns : String) (maxAttempts : Nat) :
    (strContains (probe 0).1 ns = true →
      checkNamespace probe ns true maxAttempts = ([PollEvent.probe 0], true))
    ∧ ((∀ i, strContains (probe i).1 ns = false) →
      checkNamespace probe ns true maxAttempts = (pollTrace 0 MaxRetries, true)
        ∧ numProbes (pollTrace 0 MaxRetries) = MaxRetries)
    ∧ (∀ created maxR, checkNamespace probe ns created maxR
        = checkNamespace (fun i => ((probe i).1, none)) ns created maxR) := by
  refine ⟨fun h => ?_, fun h => ?_, fun created maxR => ?_⟩
  · rcases hp : probe 0 with ⟨out, perr⟩
    rw [hp] at h
    simp [checkNamespace, MaxRetries, checkLoop, hp, h]
  · exact ⟨checkLoop_exhaust probe ns true MaxRetries 0
        (fun i => by simp [nsCond, h i]),
      numProbes_pollTrace 0 MaxRetries⟩
  · exact checkLoop_ignores_probe_error probe ns created MaxRetries 0

/-- Witness for C4's amended contract: a probe that matches immediately
stops after one invocation; one that never matches probes ten times. -/
theorem checkNamespace_poll_contract_witness :
    checkNamespace (fun _ => ("testns active", none)) "testns" true 7
        = ([PollEvent.probe 0], true)
      ∧ (checkNamespace (fun _ => ("nothing", none)) "testns" true 7
          = (pollTrace 0 MaxRetries, true)
        ∧ numProbes (pollTrace 0 MaxRetries) = MaxRetries) :=
  ⟨(checkNamespace_poll_contract (fun _ => ("testns active", none)) "testns" 7).1
      (by decide),
   (checkNamespace_poll_contract (fun _ => ("nothing", none)) "testns" 7).2.1
      (fun _ => rfl)⟩

/-! ### C7: bounded retry of the create call -/

/-- One-step unfolding of the create loop. -/
theorem createLoop_step (attempt : Nat → String × Option Err)
    (fuel r : Nat) (out : String) (err : Option Err) :
    createLoop attempt (fuel + 1) r out err =
      match attempt r with
      | (o, none) => ([PollEvent.probe r], o, none)
      | (o, some e) =>
        (PollEvent.probe r :: PollEvent.sleep
           :: (createLoop attempt fuel (r + 1) o (some e)).1,
         (createLoop attempt fuel (r + 1) o (some e)).2) := by
  rcases hp : attempt r with ⟨o, e⟩
  cases e <;> simp [createLoop, hp]

/-- When every attempt in the budget fails, the create loop runs all of them
— attempt, sleep, attempt, sleep, … — and ends holding the last attempt's
output and error. -/
theorem createLoop_exhaust (attempt : Nat → String × Option Err) (fuel : Nat) :
    ∀ r out err, (∀ j, j ≤ fuel → ((attempt (r + j)).2).isSome) →
      createLoop attempt (fuel + 1) r out err
        = (pollTrace r (fuel + 1), (attempt (r + fuel)).1, (attempt (r + fuel)).2) := by
  induction fuel with
  | zero =>
    intro r out err h
    rcases hp : attempt r with ⟨o, e⟩
    have h0 := h 0 (by omega)
    rw [Nat.add_zero, hp] at h0
    rcases e with _ | e'
    · simp at h0
    · rw [createLoop_step, hp]
      simp [createLoop, pollTrace, hp]
  | succ fuel ih =>
    intro r out err h
    rcases hp : attempt r with ⟨o, e⟩
    have h0 := h 0 (by omega)
    rw [Nat.add_zero, hp] at h0
    rcases e with _ | e'
    · simp at h0
    · have hrec := ih (r + 1) o (some e')
        (fun j hj => by
          have := h (j + 1) (by omega)
          rwa [show r + (j + 1) = r + 1 + j by omega] at this)
      rw [createLoop_step, hp]
      simp only []
      rw [hrec]
      simp [pollTrace, show r + 1 + fuel = r + (fuel + 1) by omega]

/-- When attempts `r..r+k-1` fail and attempt `r+k` succeeds within the
budget, the create loop stops right there with that attempt's output and no
error, having slept only between consecutive attempts. -/
theorem createLoop_success (attempt : Nat → String × Option Err) :
    ∀ (k fuel r : Nat) (out : String) (err : Option Err), k < fuel →
      (∀ j, j < k → ((attempt (r + j)).2).isSome) → (attempt (r + k)).2 = none →
      createLoop attempt fuel r out err
        = (pollTrace r k ++ [PollEvent.probe (r + k)], (attempt (r + k)).1, none) := by
  intro k
  induction k with
  | zero =>
    intro fuel r out err hk hfail hok
    rcases fuel with _ | f
    · omega
    rcases hp : attempt r with ⟨o, e⟩
    rw [Nat.add_zero, hp] at hok
    simp only at hok
    subst hok
    rw [createLoop_step, hp]
    simp [pollTrace, hp]
  | succ k ih =>
    intro fuel r out err hk hfail hok
    rcases fuel with _ | f
    · omega
    rcases hp : attempt r with ⟨o, e⟩
    have h0 := hfail 0 (by omega)
    rw [Nat.add_zero, hp] at h0
    rcases e with _ | e'
    · simp at h0
    · have hrec := ih f (r + 1) o (some e') (by omega)
        (fun j hj => by
          have := hfail (j + 1) (by omega)
          rwa [show r + (j + 1) = r + 1 + j by omega] at this)
        (by rwa [show r + 1 + k = r + (k + 1) by omega])
      rw [createLoop_step, hp]
      simp only []
      rw [hrec]
      simp [pollTrace, show r + 1 + k = r + (k + 1) by omega]

/-- C7: `createNamespace` returns the first successful attempt's output with
no error and no further attempts (`k` failures, then success at attempt `k`,
sleeps only between consecutive attempts); and when every one of the
`maxRetries = m + 1` attempts fails it returns the last attempt's output and
error, having slept the fixed interval between consecutive attempts. -/
theorem createNamespace_retry_contract (attempt : Nat → String × Option Err)
    (maxRetries : Nat) :
    (∀ k, k < maxRetries → (∀ j, j < k → ((attempt j).2).isSome) →
      (attempt k).2 = none →
      createNamespace attempt maxRetries
        = (pollTrace 0 k ++ [PollEvent.probe k], (attempt k).1, none))
    ∧ (∀ m, maxRetries = m + 1 → (∀ j, j < maxRetries → ((attempt j).2).isSome) →
      createNamespace attempt maxRetries
        = (pollTrace 0 maxRetries, (attempt m).1, (attempt m).2)) := by
  constructor
  · intro k hk hfail hok
    have h := createLoop_success attempt k maxRetries 0 "" none hk
      (fun j hj => by simpa using hfail j hj) (by simpa using hok)
    simpa [createNamespace] using h
  · intro m hm hfail
    subst hm
    have h := createLoop_exhaust attempt m 0 "" none
      (fun j hj => by simpa using hfail j (by omega))
    simpa [createNamespace] using h

/-- Witness for C7: two failures then a success stop the loop at the third
attempt; a budget of three all-failing attempts returns the last error. -/
theorem createNamespace_retry_contract_witness :
    createNamespace attemptFailTwice 5
        = (pollTrace 0 2 ++ [PollEvent.probe 2], "out", none)
      ∧ createNamespace attemptFailAll 3
        = (pollTrace 0 3, "err-out", some (Err.execErr "always")) := by
  constructor
  · have h := (createNamespace_retry_contract attemptFailTwice 5).1 2
      (by omega) (by decide) (by decide)
    rw [h]; decide
  · have h := (createNamespace_retry_contract attemptFailAll 3).2 2 rfl (by decide)
    rw [h]; decide

/-! ### C5: process runner error policy -/

/-- `strContains` agrees with list infix. -/
theorem strContains_iff (hay needle : String) :
    strContains hay needle = true ↔ needle.data <:+: hay.data := by
  simp only [strContains, List.any_eq_true]
  constructor
  · rintro ⟨t, ht, hpre⟩
    rw [List.mem_tails _ _] at ht
    rw [List.isPrefixOf_iff_prefix] at hpre
    exact List.infix_iff_prefix_suffix.mpr ⟨t, hpre, ht⟩
  · intro h
    obtain ⟨t, hpre, hsuf⟩ := List.infix_iff_prefix_suffix.mp h
    exact ⟨t, (List.mem_tails _ _).mpr hsuf, List.isPrefixOf_iff_prefix.mpr hpre⟩

/-- C5: a child exiting zero is success (`nil` error, captured stdout
returned); a non-zero exit or spawn failure with `AllowError = false` is
fatal to the whole run; with `AllowError = true` it is returned as a normal
error value whose message embeds the captured standard-error text and the
underlying system error, and the caller continues. -/
theorem runCLIWithOpts_error_policy (cli : String) (args : List String)
    (opts : RunOpts) (res : ProcResult) :
    (res.sysErr = none →
      runCLIWithOpts cli args opts res
        = RunOutcome.ret (if opts.stdoutWriter then "" else res.stdout) none)
    ∧ (∀ sys, res.sysErr = some sys → opts.allowError = false →
      runCLIWithOpts cli args opts res
        = RunOutcome.fatal ("Failed to successfully execute '"
            ++ cmdCLIDesc cli args ++ "': "
            ++ ("Execution error: stderr: '" ++ res.stderr
                ++ "' error: '" ++ sys ++ "'")))
    ∧ (∀ sys, res.sysErr = some sys → opts.allowError = true →
      runCLIWithOpts cli args opts res
        = RunOutcome.ret (if opts.stdoutWriter then "" else res.stdout)
            (some ("Execution error: stderr: '" ++ res.stderr
                   ++ "' error: '" ++ sys ++ "'"))
        ∧ strContains ("Execution error: stderr: '" ++ res.stderr
              ++ "' error: '" ++ sys ++ "'") res.stderr = true
        ∧ strContains ("Execution error: stderr: '" ++ res.stderr
              ++ "' error: '" ++ sys ++ "'") sys = true) := by
  refine ⟨fun h => ?_, fun sys h ha => ?_, fun sys h ha => ⟨?_, ?_, ?_⟩⟩
  · simp [runCLIWithOpts, h]
  · simp [runCLIWithOpts, h, ha]
  · simp [runCLIWithOpts, h, ha]
  · rw [strContains_iff]
    have := List.infix_append ("Execution error: stderr: '").data
      res.stderr.data ("' error: '" ++ sys ++ "'").data
    simpa [String.data_append] using this
  · rw [strContains_iff]
    have := List.infix_append
      ("Execution error: stderr: '" ++ res.stderr ++ "' error: '").data
      sys.data ("'").data
    simpa [String.data_append] using this

/-- Witness for C5: a failing `kubectl create` is fatal without
`AllowError`, is a returned error with it, and a clean exit is a `nil`
error. -/
theorem runCLIWithOpts_error_policy_witness :
    runCLIWithOpts "kubectl" ["create", "namespace", "x"]
        ⟨false, false, false, false⟩ ⟨"", "denied", some "exit status 1"⟩
      = RunOutcome.fatal "Failed to successfully execute 'kubectl create namespace x': Execution error: stderr: 'denied' error: 'exit status 1'"
    ∧ runCLIWithOpts "kubectl" ["create", "namespace", "x"]
        ⟨false, true, false, false⟩ ⟨"out", "denied", some "exit status 1"⟩
      = RunOutcome.ret "out"
          (some "Execution error: stderr: 'denied' error: 'exit status 1'")
    ∧ runCLIWithOpts "kubectl" ["get", "ns"]
        ⟨false, false, false, false⟩ ⟨"ok", "", none⟩
      = RunOutcome.ret "ok" none := by
  refine ⟨?_, ?_, ?_⟩
  · have h := (runCLIWithOpts_error_policy "kubectl" ["create", "namespace", "x"]
        ⟨false, false, false, false⟩ ⟨"", "denied", some "exit status 1"⟩).2.1
        "exit status 1" rfl rfl
    rw [h]; decide
  · have h := ((runCLIWithOpts_error_policy "kubectl" ["create", "namespace", "x"]
        ⟨false, true, false, false⟩ ⟨"out", "denied", some "exit status 1"⟩).2.2
        "exit status 1" rfl rfl).1
    rw [h]; decide
  · exact (runCLIWithOpts_error_policy "kubectl" ["get", "ns"]
        ⟨false, false, false, false⟩ ⟨"ok", "", none⟩).1 rfl

/-! ### C9: idempotence of Mkdir plans -/

/-- `MkdirAll` never touches the file set. -/
theorem mkdirAll_files (p : String) (fs : FS) :
    ((mkdirAll p fs).1).files = fs.files := by
  simp only [mkdirAll]
  split_ifs <;> rfl

/-- Success of `MkdirAll` depends only on the path and the file set. -/
theorem mkdirAll_ok_transfer (p : String) (fs fs₂ : FS)
    (h : (mkdirAll p fs).2 = none) (hf : fs₂.files = fs.files) :
    (mkdirAll p fs₂).2 = none := by
  simp only [mkdirAll, hf] at h ⊢
  split_ifs at h ⊢
  simp_all

/-- A plan of `Mkdir` steps changes only directories, never files. -/
theorem runSteps_mkdir_files (w : World) (d : String) (data : Ctx) :
    ∀ (steps : List Step) (fs : FS), (∀ s ∈ steps, s.mkdir ≠ "") →
      ((runSteps w d data steps fs).2.1).files = fs.files := by
  intro steps
  induction steps with
  | nil => intro fs _; rfl
  | cons s rest ih =>
    intro fs hall
    have hs : s.mkdir ≠ "" := hall s (by simp)
    rcases hI : w.interpretString s.mkdir data with ⟨c, t⟩
    rcases hM : mkdirAll c fs with ⟨fs', m⟩
    have hx : execStep w d data fs s = ([Event.mkdirCall c], fs', m) := by
      simp [execStep, hs, hI, hM]
    have hf' : fs'.files = fs.files := by
      have := mkdirAll_files c fs
      rw [hM] at this
      exact this
    rw [runSteps_cons, hx]
    cases m with
    | some e => simpa using hf'
    | none =>
      simp only []
      rw [ih fs' (fun s' hs' => hall s' (by simp [hs']))]
      exact hf'

/-- A successful all-`Mkdir` run stays successful from any state with the
same file set (directories already created do not hurt: `MkdirAll` is
idempotent). -/
theorem runSteps_mkdir_ok_transfer (w : World) (d : String) (data : Ctx) :
    ∀ (steps : List Step) (fs fs₂ : FS), (∀ s ∈ steps, s.mkdir ≠ "") →
      (runSteps w d data steps fs).2.2 = none → fs₂.files = fs.files →
      (runSteps w d data steps fs₂).2.2 = none := by
  intro steps
  induction steps with
  | nil => intro fs fs₂ _ _ _; rfl
  | cons s rest ih =>
    intro fs fs₂ hall hok hf
    have hs : s.mkdir ≠ "" := hall s (by simp)
    rcases hI : w.interpretString s.mkdir data with ⟨c, t⟩
    rcases hM : mkdirAll c fs with ⟨fs', m⟩
    rcases hM₂ : mkdirAll c fs₂ with ⟨fs₂', m₂⟩
    have hx : execStep w d data fs s = ([Event.mkdirCall c], fs', m) := by
      simp [execStep, hs, hI, hM]
    have hx₂ : execStep w d data fs₂ s = ([Event.mkdirCall c], fs₂', m₂) := by
      simp [execStep, hs, hI, hM₂]
    rw [runSteps_cons, hx] at hok
    cases m with
    | some e => simp at hok
    | none =>
      have hm₂ : m₂ = none := by
        have := mkdirAll_ok_transfer c fs fs₂ (by rw [hM]) hf
        rw [hM₂] at this
        exact this
      subst hm₂
      have hf' : fs'.files = fs.files := by
        have := mkdirAll_files c fs; rw [hM] at this; exact this
      have hf₂' : fs₂'.files = fs₂.files := by
        have := mkdirAll_files c fs₂; rw [hM₂] at this; exact this
      have hrest : (runSteps w d data rest fs').2.2 = none := by
        simpa using hok
      rw [runSteps_cons, hx₂]
      simp only []
      exact ih fs' fs₂' (fun s' hs' => hall s' (by simp [hs']))
        hrest (by rw [hf₂', hf, ← hf'])

/-- C9: for a plan consisting of `Mkdir` steps whose path templates render
successfully, once `RunDeploy` has succeeded, running the very same deploy
again against the resulting state produces no error — creating a directory
that already exists (ancestors included) is not an error. -/
theorem mkdir_plan_idempotent (w : World) (sdk : SdkStatus) (fs : FS)
    (deployPlan : DeployPlan)
    (hload : w.loadSDKInit (sdk.dir ++ "deploy.yaml") = .ok deployPlan)
    (hmk : ∀ s ∈ deployPlan.spec.steps, s.mkdir ≠ "")
    (_hrender : ∀ s ∈ deployPlan.spec.steps,
      (w.interpretString s.mkdir ([] : Ctx)).2 = none)
    (h1 : (RunDeploy w sdk fs).2.2 = none) :
    (RunDeploy w sdk ((RunDeploy w sdk fs).2.1)).2.2 = none := by
  simp only [RunDeploy, hload] at h1 ⊢
  exact runSteps_mkdir_ok_transfer w sdk.dir ([] : Ctx) deployPlan.spec.steps
    fs _ hmk h1
    (runSteps_mkdir_files w sdk.dir ([] : Ctx) deployPlan.spec.steps fs hmk)

/-- Witness for C9: a two-step `Mkdir` plan creating `x/y` and `x/z` runs
twice without error. -/
theorem mkdir_plan_idempotent_witness :
    (RunDeploy wTwoMkdir ⟨"sdk/", "go"⟩
        ((RunDeploy wTwoMkdir ⟨"sdk/", "go"⟩ ⟨[], []⟩).2.1)).2.2 = none :=
  mkdir_plan_idempotent wTwoMkdir ⟨"sdk/", "go"⟩ ⟨[], []⟩
    ⟨⟨[⟨"a", "x/y", "", ⟨"", ""⟩⟩, ⟨"b", "x/z", "", ⟨"", ""⟩⟩]⟩⟩
    rfl (by decide) (by decide) (by decide)

end KnClient
